import Mathlib

/-!
Verification of the JSON-RPC 2.0 client transport
(`Poco::RemotingNG::JSONRPC::Transport`, `src/HTTPS_Server/include/Poco/RemotingNG/JSONRPC/Transport.h`).

The repository ships only the interface declaration of the transport; the
member-function bodies (constructor, configuration setters, the call
protocol, authentication handshake, cookie store and serializer) are not
under `src/`.  Wherever a definition below embeds such a missing body it is
modelled from the specification (`spec.md`) and its doc comment says so.
The one function whose body is in `src/` is the inline
`Transport::httpSessionFactory()` (Transport.h lines 239-242), embedded
directly from the source.
-/

namespace JSONRPC

/-- `Transport::AuthMode` (Transport.h lines 69-76): the authentication mode. -/
inductive AuthMode where
  | AUTH_NONE
  | AUTH_BASIC
  | AUTH_DIGEST
  | AUTH_ANY
  deriving DecidableEq, Repr

/-- Modelled from the spec: the transport error taxonomy of spec §7.
The member bodies that raise these are not under `src/`. -/
inductive TransportError where
  | illegalState
  | configurationError
  | networkError
  | protocolError
  | authenticationError
  deriving DecidableEq, Repr

/-- Modelled from the spec: a live HTTP client session
(`Poco::Net::HTTPClientSession`, held by `_pSession`); only the three
pieces of per-session configuration the spec's setters touch are kept.
Timespans are modelled as integer microsecond counts. -/
structure Session where
  timeout : Int
  keepAlive : Bool
  keepAliveTimeout : Int
  deriving DecidableEq, Repr

/-- Modelled from the spec: a cookie-store entry (spec §3): name, value,
domain, path and an optional absolute expiry time in seconds. -/
structure Cookie where
  name : String
  value : String
  domain : String
  path : String
  expiry : Option Nat
  deriving DecidableEq, Repr

/-- The transport state: the private members of `Transport`
(Transport.h lines 213-230).  Session, streams and cookie store are
modelled from the spec since the member bodies are not under `src/`;
stream handles are identified by numbers so that releasing them is
observable. -/
structure Transport where
  username : String
  password : String
  pSession : Option Session
  endPoint : String
  chunkedTransferEncoding : Bool
  compression : Bool
  authMode : AuthMode
  userAgent : String
  pStream : Option Nat
  pDeflater : Option Nat
  cookieStore : List Cookie
  serverSignalledClose : Bool
  deriving DecidableEq, Repr

namespace Transport

/-- Modelled from the spec: the constructor `Transport::Transport()` (its
body is not under `src/`).  Defaults follow the header's doc comments:
chunked transfer encoding "is the default" (lines 120-123), compression
"Default is disabled" (lines 134-136), and no credentials or session
exist before `connect`. -/
def new : Transport :=
  { username := ""
    password := ""
    pSession := none
    endPoint := ""
    chunkedTransferEncoding := true
    compression := false
    authMode := .AUTH_NONE
    userAgent := ""
    pStream := none
    pDeflater := none
    cookieStore := []
    serverSignalledClose := false }

/-- `Transport::isChunkedTransferEncodingEnabled()` (lines 120-123);
body modelled from the spec: returns the `_chunkedTransferEncoding` flag. -/
def isChunkedTransferEncodingEnabled (t : Transport) : Bool :=
  t.chunkedTransferEncoding

/-- `Transport::isCompressionEnabled()` (lines 134-136); body modelled
from the spec: returns the `_compression` flag. -/
def isCompressionEnabled (t : Transport) : Bool :=
  t.compression

/-- `Transport::setAuthentication(AuthMode)` (lines 149-154); body
modelled from the spec: "enabling chunked transfer with DIGEST/ANY is
rejected at configuration time with a configuration error" (spec §4.1),
so selecting DIGEST or ANY while chunked encoding is enabled fails. -/
def setAuthentication (m : AuthMode) (t : Transport) : Except TransportError Transport :=
  if (m = .AUTH_DIGEST ∨ m = .AUTH_ANY) ∧ t.chunkedTransferEncoding then
    .error .configurationError
  else
    .ok { t with authMode := m }

/-- `Transport::enableChunkedTransferEncoding(bool)` (lines 125-132);
body modelled from the spec: enabling chunked encoding while the
authentication mode is DIGEST or ANY is a configuration error. -/
def enableChunkedTransferEncoding (b : Bool) (t : Transport) : Except TransportError Transport :=
  if b ∧ (t.authMode = .AUTH_DIGEST ∨ t.authMode = .AUTH_ANY) then
    .error .configurationError
  else
    .ok { t with chunkedTransferEncoding := b }

/-- `Transport::enableCompression(bool)` (lines 138-147); body modelled
from the spec: "Enabling compression without chunked transfer encoding
fails immediately at configuration time with a configuration error"
(spec §8). -/
def enableCompression (b : Bool) (t : Transport) : Except TransportError Transport :=
  if b ∧ ¬t.chunkedTransferEncoding then
    .error .configurationError
  else
    .ok { t with compression := b }

/-- `Transport::getAuthentication()` (lines 155-156); body modelled from
the spec: returns the stored mode. -/
def getAuthentication (t : Transport) : AuthMode :=
  t.authMode

end Transport

/-- `Poco::Net::HTTPSessionFactory` objects, abstracted to their identity
(address): the claims about the factory concern only which object a call
returns, not its behaviour. -/
structure HTTPSessionFactory where
  addr : Nat
  deriving DecidableEq, Repr

namespace Transport

/-- The static member `Transport::_httpSessionFactory`
(Transport.h line 230): a single process-wide object. -/
def httpSessionFactoryStaticMember : HTTPSessionFactory := ⟨0⟩

/-- The inline `Transport::httpSessionFactory()` (Transport.h lines
239-242), embedded from the source: `return _httpSessionFactory;`.
The source function is static; a call site is modelled by the transport
instance it is reached through and the time of the call, neither of which
the body consults. -/
def httpSessionFactoryCall (_t : Transport) (_time : Nat) : HTTPSessionFactory :=
  httpSessionFactoryStaticMember

/-- Modelled from the spec: the session created on `connect` before any
setter has run; its concrete values are the defaults of
`Poco::Net::HTTPClientSession` (60 s HTTP timeout, keep-alive off,
8 s keep-alive timeout), none of which the claims depend on. -/
def defaultSession : Session :=
  { timeout := 60000000, keepAlive := false, keepAliveTimeout := 8000000 }

/-- `Transport::connect(const std::string&)` (line 197); body modelled
from the spec (§4.1): stores the endpoint and establishes the session
the per-session setters operate on. -/
def connect (ep : String) (t : Transport) : Transport :=
  { t with endPoint := ep, pSession := some defaultSession }

/-- `Transport::disconnect()` (line 198); body modelled from the spec
(§4.1): tears down any pooled session and returns to DISCONNECTED. -/
def disconnect (t : Transport) : Transport :=
  { t with pSession := none, endPoint := "" }

/-- `Transport::connected()` (line 199); body modelled from the spec. -/
def connected (t : Transport) : Bool :=
  t.endPoint ≠ ""

/-- `Transport::requireSession()` (lines 207-208); body modelled from the
spec: yields the current session, or an illegal-state error when none
exists (header doc, lines 84-118). -/
def requireSession (t : Transport) : Except TransportError Session :=
  match t.pSession with
  | none => .error .illegalState
  | some s => .ok s

/-- `Transport::getTimeout()` (lines 84-88); body modelled from the spec:
reads the session's HTTP timeout, illegal-state when not connected. -/
def getTimeout (t : Transport) : Except TransportError Int :=
  (t.requireSession).map Session.timeout

/-- `Transport::setTimeout(const Poco::Timespan&)` (lines 90-94); body
modelled from the spec: sets the session's HTTP timeout, illegal-state
when not connected. -/
def setTimeout (v : Int) (t : Transport) : Except TransportError Transport :=
  (t.requireSession).map fun s => { t with pSession := some { s with timeout := v } }

/-- `Transport::isKeepAliveEnabled()` (lines 96-100); body modelled from
the spec: reads the session's keep-alive flag, illegal-state when not
connected. -/
def isKeepAliveEnabled (t : Transport) : Except TransportError Bool :=
  (t.requireSession).map Session.keepAlive

/-- `Transport::enableKeepAlive(bool)` (lines 102-106); body modelled
from the spec: sets the session's keep-alive flag, illegal-state when
not connected. -/
def enableKeepAlive (b : Bool) (t : Transport) : Except TransportError Transport :=
  (t.requireSession).map fun s => { t with pSession := some { s with keepAlive := b } }

/-- `Transport::getKeepAliveTimeout()` (lines 108-112); body modelled
from the spec: reads the session's keep-alive timeout, illegal-state
when not connected. -/
def getKeepAliveTimeout (t : Transport) : Except TransportError Int :=
  (t.requireSession).map Session.keepAliveTimeout

/-- `Transport::setKeepAliveTimeout(const Poco::Timespan&)` (lines
114-118); body modelled from the spec: sets the session's keep-alive
timeout, illegal-state when not connected. -/
def setKeepAliveTimeout (v : Int) (t : Transport) : Except TransportError Transport :=
  (t.requireSession).map fun s => { t with pSession := some { s with keepAliveTimeout := v } }

/-- `Transport::endRequest()` (line 204); body modelled from the spec
(§4.1 step 5): "releases per-call resources (closes/returns the
underlying stream and, if keep-alive is disabled or the server signalled
connection close, disposes the Session); idempotent on repeated calls."
The second component records whether this call released a per-call
stream resource, so double-freeing is observable. -/
def endRequest (t : Transport) : Transport × Bool :=
  let released := t.pStream.isSome ∨ t.pDeflater.isSome
  let keep :=
    match t.pSession with
    | some s => s.keepAlive && !t.serverSignalledClose
    | none => false
  ({ t with
      pStream := none
      pDeflater := none
      pSession := if keep then t.pSession else none },
   decide released)

end Transport

/-- Modelled from the spec: a `WWW-Authenticate: Digest` challenge; the
fields the spec's algorithm consumes ("the challenge's
nonce/realm/qop", §4.1). -/
structure DigestChallenge where
  realm : String
  nonce : String
  qop : String
  deriving DecidableEq, Repr

/-- Modelled from the spec: the credentials attached to one HTTP request
via the `Authorization` header (spec §4.1, §6). -/
inductive Credentials where
  | noCred
  | basicCred (user pass : String)
  | digestCred (response : String)
  deriving DecidableEq, Repr

/-- Modelled from the spec: the digest response value, "computed ... using
the challenge's nonce/realm/qop" together with the stored username and
password (spec §4.1).  The hash itself is external (Poco's
`HTTPCredentials`); its inputs are what the claims inspect, so it is
modelled as an injective tagging of those inputs. -/
def computeDigestResponse (user pass : String) (ch : DigestChallenge) : String :=
  user ++ ":" ++ ch.realm ++ ":" ++ ch.nonce ++ ":" ++ ch.qop ++ ":" ++ pass

/-- Modelled from the spec: the parts of an HTTP response the
authentication algorithm inspects: the status code, an optional Digest
challenge and whether a Basic challenge was offered (spec §4.1, §6). -/
structure HttpResponse where
  status : Nat
  digestChallenge : Option DigestChallenge
  basicChallenge : Bool
  deriving DecidableEq, Repr

/-- Modelled from the spec: one HTTP request of the handshake, reduced to
what the claims observe: the credentials attached and the logical
request body (spec §4.1). -/
structure HttpRequest where
  auth : Credentials
  body : String
  deriving DecidableEq, Repr

/-- Modelled from the spec: the outcome of a request/reply call: the
final response handed to the deserializer, or a terminal authentication
failure (spec §4.1, §7). -/
inductive CallOutcome where
  | completed (r : HttpResponse)
  | authFailure
  deriving DecidableEq, Repr

namespace Transport

/-- Modelled from the spec: the credentials attached to the first HTTP
request of a call (spec §4.1): AUTH_BASIC attaches Basic credentials
proactively; NONE, DIGEST and ANY attach none. -/
def firstRequest (t : Transport) (body : String) : HttpRequest :=
  match t.authMode with
  | .AUTH_BASIC => { auth := .basicCred t.username t.password, body := body }
  | _ => { auth := .noCred, body := body }

/-- Modelled from the spec: the client side of one request/reply exchange
(the missing bodies of `sendRequest` and the authentication negotiator,
spec §4.1): the server's behaviour is a function from the attempt index
to its response; the result is the list of HTTP requests sent, in order,
and the call's outcome.  DIGEST: an unauthenticated first request; on a
401 carrying a Digest challenge, one retry with the computed digest
response over the same body; a second 401 is terminal.  ANY: the same,
choosing Basic or Digest from the challenge.  No other response causes a
retry. -/
def performCall (t : Transport) (body : String) (server : Nat → HttpResponse) :
    List HttpRequest × CallOutcome :=
  let req1 := t.firstRequest body
  let resp1 := server 0
  match t.authMode with
  | .AUTH_DIGEST =>
    if resp1.status = 401 then
      match resp1.digestChallenge with
      | some ch =>
        let req2 : HttpRequest :=
          { auth := .digestCred (computeDigestResponse t.username t.password ch), body := body }
        let resp2 := server 1
        if resp2.status = 401 then ([req1, req2], .authFailure)
        else ([req1, req2], .completed resp2)
      | none => ([req1], .authFailure)
    else ([req1], .completed resp1)
  | .AUTH_ANY =>
    if resp1.status = 401 then
      match resp1.digestChallenge with
      | some ch =>
        let req2 : HttpRequest :=
          { auth := .digestCred (computeDigestResponse t.username t.password ch), body := body }
        let resp2 := server 1
        if resp2.status = 401 then ([req1, req2], .authFailure)
        else ([req1, req2], .completed resp2)
      | none =>
        if resp1.basicChallenge then
          let req2 : HttpRequest :=
            { auth := .basicCred t.username t.password, body := body }
          let resp2 := server 1
          if resp2.status = 401 then ([req1, req2], .authFailure)
          else ([req1, req2], .completed resp2)
        else ([req1], .authFailure)
    else ([req1], .completed resp1)
  | _ => ([req1], .completed resp1)

end Transport

/-- Modelled from the spec: the observable steps of the HTTP exchange of
one call (spec §4.1 steps 1-5 and the one-way variant). -/
inductive ExchangeStep where
  | writeRequestBody
  | readStatusAndHeaders
  | readResponseBody
  | deserializePayload
  | drainExchange
  deriving DecidableEq, Repr

namespace Transport

/-- Modelled from the spec: the exchange trace of a request/reply call
(`beginRequest`/`sendRequest`, spec §4.1): the body is written, the
status line and headers are read, the response body is read and
deserialized. -/
def sendRequestTrace : List ExchangeStep :=
  [.writeRequestBody, .readStatusAndHeaders, .readResponseBody, .deserializePayload]

/-- Modelled from the spec: the exchange trace of a one-way call
(`beginMessage`/`sendMessage`, line 201; spec §4.1): the request is
fully written, then the HTTP exchange is drained; no response body is
read and nothing is deserialized. -/
def sendMessageTrace : List ExchangeStep :=
  [.writeRequestBody, .drainExchange]

end Transport

/-- Modelled from the spec: the closed set of scalar parameter kinds the
serializer boundary contract mentions (spec §4.4, §8). -/
inductive Scalar where
  | str (s : String)
  | int (i : Int)
  | bool (b : Bool)
  deriving DecidableEq, Repr

/-- Modelled from the spec: the JSON values a JSON-RPC envelope is built
from (spec §6); the JSON codec itself is external, so values are kept
as trees. -/
inductive Json where
  | jNull
  | jStr (s : String)
  | jInt (i : Int)
  | jBool (b : Bool)
  | jObj (fields : List (String × Json))

/-- Modelled from the spec: how the serializer writes one scalar field
value (spec §4.4). -/
def scalarToJson : Scalar → Json
  | .str s => .jStr s
  | .int i => .jInt i
  | .bool b => .jBool b

/-- Modelled from the spec: how the deserializer reads one scalar field
value back (spec §4.4); non-scalar values are not parameters. -/
def jsonToScalar : Json → Option Scalar
  | .jStr s => some (.str s)
  | .jInt i => some (.int i)
  | .jBool b => some (.bool b)
  | _ => none

/-- Modelled from the spec: a JSON-RPC request envelope
`{method, params-by-name, id}` (spec §2, §6). -/
structure RequestEnvelope where
  method : String
  params : List (String × Scalar)
  id : Int
  deriving DecidableEq, Repr

/-- Modelled from the spec: a JSON-RPC response envelope carrying a
result and the correlation id (spec §6). -/
structure ResponseEnvelope where
  result : Scalar
  id : Int
  deriving DecidableEq, Repr

/-- Modelled from the spec: `Serializer` (`_serializer`, Transport.h line
217; body not under `src/`): encodes a request envelope as the wire
object `{"jsonrpc":"2.0","method":...,"params":{...},"id":...}`
(spec §6). -/
def serializeRequest (e : RequestEnvelope) : Json :=
  .jObj [("jsonrpc", .jStr "2.0"),
         ("method", .jStr e.method),
         ("params", .jObj (e.params.map fun p => (p.1, scalarToJson p.2))),
         ("id", .jInt e.id)]

/-- Modelled from the spec: `Serializer` response encoding
`{"jsonrpc":"2.0","result":...,"id":...}` (spec §6). -/
def serializeResponse (e : ResponseEnvelope) : Json :=
  .jObj [("jsonrpc", .jStr "2.0"),
         ("result", scalarToJson e.result),
         ("id", .jInt e.id)]

/-- Modelled from the spec: the deserializer's reading of the named
scalar parameters of a `params` object (spec §4.4). -/
def decodeParams : List (String × Json) → Option (List (String × Scalar))
  | [] => some []
  | (k, v) :: rest =>
    match jsonToScalar v, decodeParams rest with
    | some s, some tail => some ((k, s) :: tail)
    | _, _ => none

/-- Modelled from the spec: `Deserializer` (`_deserializer`, Transport.h
line 218; body not under `src/`): decodes a request envelope from the
wire object (spec §4.4, §6). -/
def deserializeRequest (j : Json) : Option RequestEnvelope :=
  match j with
  | .jObj fields =>
    match fields.lookup "method", fields.lookup "params", fields.lookup "id" with
    | some (.jStr m), some (.jObj ps), some (.jInt i) =>
      (decodeParams ps).map fun params => { method := m, params := params, id := i }
    | _, _, _ => none
  | _ => none

/-- Modelled from the spec: `Deserializer` decoding of a response
envelope (spec §4.4, §6). -/
def deserializeResponse (j : Json) : Option ResponseEnvelope :=
  match j with
  | .jObj fields =>
    match fields.lookup "result", fields.lookup "id" with
    | some r, some (.jInt i) =>
      (jsonToScalar r).map fun s => { result := s, id := i }
    | _, _ => none
  | _ => none

/-- Modelled from the spec: one parsed `Set-Cookie` header as the cookie
store consumes it (spec §4.3); the claims use name, value, `Path` and
`Max-Age`. -/
structure SetCookieHeaderData where
  name : String
  value : String
  path : String
  maxAge : Option Nat
  deriving DecidableEq, Repr

namespace CookieStore

/-- Modelled from the spec: whether the first character list leads the
second (the path-match test of spec §4.3, on the characters of the
paths). -/
def charListLeads : List Char → List Char → Bool
  | [], _ => true
  | _ :: _, [] => false
  | c :: cs, d :: ds => c == d && charListLeads cs ds

/-- Modelled from the spec: a cookie path matches a request path when
the request path begins with the cookie path (spec §4.3). -/
def pathMatches (cookiePath reqPath : String) : Bool :=
  charListLeads cookiePath.data reqPath.data

/-- Modelled from the spec: `update(setCookieHeaders, endpoint)`
(spec §4.3): parses the header into an entry keyed by
(domain, path, name), overwriting any existing entry with the same key;
`Max-Age` is turned into an absolute expiry from the store's clock
`now`; `Max-Age=0` is a deletion signal and removes the entry. -/
def update (store : List Cookie) (h : SetCookieHeaderData) (domain : String) (now : Nat) :
    List Cookie :=
  let rest := store.filter fun c =>
    !(c.domain == domain && c.path == h.path && c.name == h.name)
  if h.maxAge = some 0 then rest
  else rest ++ [{ name := h.name, value := h.value, domain := domain, path := h.path,
                  expiry := h.maxAge.map fun a => now + a }]

/-- Modelled from the spec: insertion step of the longest-path-first
ordering of the cookies sent on a request (spec §3). -/
def insertByPathLen (c : Cookie) : List Cookie → List Cookie
  | [] => [c]
  | d :: ds =>
    if d.path.length < c.path.length then c :: d :: ds else d :: insertByPathLen c ds

/-- Modelled from the spec: longest-path-first ordering of matching
cookies (spec §3). -/
def sortByPathLen : List Cookie → List Cookie
  | [] => []
  | c :: cs => insertByPathLen c (sortByPathLen cs)

/-- Modelled from the spec: `cookiesFor(endpoint)` (spec §4.3): the
ordered name/value pairs whose domain/path match the endpoint's host and
path, excluding entries expired at the wall-clock read time `now`,
longest path first. -/
def cookiesFor (store : List Cookie) (host reqPath : String) (now : Nat) :
    List (String × String) :=
  let matching := store.filter fun c =>
    c.domain == host && pathMatches c.path reqPath &&
      (match c.expiry with
       | none => true
       | some e => decide (now ≤ e))
  (sortByPathLen matching).map fun c => (c.name, c.value)

/-- Modelled from the spec: the value of the `Cookie` request header
built from the matching pairs (spec §4.3, §6). -/
def cookieHeaderValue (pairs : List (String × String)) : String :=
  String.intercalate "; " (pairs.map fun p => p.1 ++ "=" ++ p.2)

end CookieStore

/-!  Theorems settling the claims.  -/

/-- C9: a newly constructed Transport has chunked transfer encoding
enabled and compression disabled, before any configuration call. -/
theorem new_transport_defaults :
    Transport.new.isChunkedTransferEncodingEnabled = true ∧
    Transport.new.isCompressionEnabled = false :=
  ⟨rfl, rfl⟩

/-- C10: every call to `Transport::httpSessionFactory()`, from any
transport instance at any time, returns the one static
`HTTPSessionFactory` object shared by all transports. -/
theorem httpSessionFactory_process_wide (t1 t2 : Transport) (time1 time2 : Nat) :
    t1.httpSessionFactoryCall time1 = t2.httpSessionFactoryCall time2 ∧
    t1.httpSessionFactoryCall time1 = Transport.httpSessionFactoryStaticMember :=
  ⟨rfl, rfl⟩

/-- C2: combining chunked transfer encoding with DIGEST/ANY is rejected
with a configuration error at configuration time, in both directions:
`setAuthentication(DIGEST|ANY)` while chunked encoding is enabled, and
`enableChunkedTransferEncoding(true)` while DIGEST/ANY is set. -/
theorem chunked_digest_combination_rejected (t u : Transport) (m : AuthMode)
    (hm : m = .AUTH_DIGEST ∨ m = .AUTH_ANY)
    (hc : t.chunkedTransferEncoding = true)
    (hu : u.authMode = .AUTH_DIGEST ∨ u.authMode = .AUTH_ANY) :
    t.setAuthentication m = .error .configurationError ∧
    u.enableChunkedTransferEncoding true = .error .configurationError := by
  constructor
  · unfold Transport.setAuthentication
    rw [if_pos ⟨hm, hc⟩]
  · unfold Transport.enableChunkedTransferEncoding
    rw [if_pos ⟨rfl, hu⟩]

/-- Witness for C2 at concrete transports. -/
theorem chunked_digest_combination_rejected_witness :
    Transport.setAuthentication .AUTH_DIGEST Transport.new = .error .configurationError ∧
    Transport.enableChunkedTransferEncoding true
        { Transport.new with authMode := .AUTH_DIGEST, chunkedTransferEncoding := false } =
      .error .configurationError :=
  chunked_digest_combination_rejected Transport.new
    { Transport.new with authMode := .AUTH_DIGEST, chunkedTransferEncoding := false }
    .AUTH_DIGEST (Or.inl rfl) rfl (Or.inl rfl)

/-- C3: `enableCompression(true)` on a transport with chunked transfer
encoding disabled fails with a configuration error (before any network
I/O: `enableCompression` performs none); and whenever
`enableCompression(true)` is accepted, chunked encoding was enabled. -/
theorem compression_requires_chunked (t u u' : Transport)
    (hc : t.chunkedTransferEncoding = false)
    (hok : u.enableCompression true = .ok u') :
    t.enableCompression true = .error .configurationError ∧
    u.chunkedTransferEncoding = true := by
  constructor
  · unfold Transport.enableCompression
    rw [if_pos ⟨rfl, by simp [hc]⟩]
  · by_contra hne
    have hb : u.chunkedTransferEncoding = false := by
      cases h : u.chunkedTransferEncoding
      · rfl
      · exact absurd h hne
    unfold Transport.enableCompression at hok
    rw [if_pos ⟨rfl, by simp [hb]⟩] at hok
    exact Except.noConfusion hok

/-- Witness for C3 at concrete transports. -/
theorem compression_requires_chunked_witness :
    Transport.enableCompression true
        { Transport.new with chunkedTransferEncoding := false } =
      .error .configurationError ∧
    Transport.new.chunkedTransferEncoding = true :=
  compression_requires_chunked
    { Transport.new with chunkedTransferEncoding := false }
    Transport.new { Transport.new with compression := true } rfl rfl

/-- C5: `endRequest()` is idempotent: it never raises (it is total), the
state after the second of two successive calls equals the state after
the first, and the second call releases no per-call stream resource. -/
theorem endRequest_idempotent (t : Transport) :
    ((t.endRequest).1.endRequest).1 = (t.endRequest).1 ∧
    ((t.endRequest).1.endRequest).2 = false := by
  obtain ⟨un, pw, ps, ep, ch, co, am, ua, st, df, cs, sc⟩ := t
  cases ps with
  | none => simp [Transport.endRequest]
  | some s => cases hk : s.keepAlive <;> cases sc <;> simp [Transport.endRequest, hk]

/-- C7: a one-way call's exchange consists of fully writing the request
and draining the HTTP exchange; it never reads a response body and never
deserializes an application payload (a request/reply exchange does
both). -/
theorem sendMessage_never_reads_response :
    Transport.sendMessageTrace = [.writeRequestBody, .drainExchange] ∧
    ExchangeStep.readResponseBody ∉ Transport.sendMessageTrace ∧
    ExchangeStep.deserializePayload ∉ Transport.sendMessageTrace ∧
    ExchangeStep.readResponseBody ∈ Transport.sendRequestTrace ∧
    ExchangeStep.deserializePayload ∈ Transport.sendRequestTrace := by
  decide

/-- C4: before a session exists, each of the six per-session
configuration operations fails with illegal-state; after `connect()`,
each setter succeeds and its value is returned by the matching getter. -/
theorem session_config_ops (t : Transport) (ep : String) (v w : Int) (b : Bool)
    (h : t.pSession = none) :
    t.getTimeout = .error .illegalState ∧
    t.setTimeout v = .error .illegalState ∧
    t.isKeepAliveEnabled = .error .illegalState ∧
    t.enableKeepAlive b = .error .illegalState ∧
    t.getKeepAliveTimeout = .error .illegalState ∧
    t.setKeepAliveTimeout v = .error .illegalState ∧
    Except.bind ((t.connect ep).setTimeout v) Transport.getTimeout = .ok v ∧
    Except.bind ((t.connect ep).enableKeepAlive b) Transport.isKeepAliveEnabled = .ok b ∧
    Except.bind ((t.connect ep).setKeepAliveTimeout w) Transport.getKeepAliveTimeout = .ok w := by
  refine ⟨?_, ?_, ?_, ?_, ?_, ?_, ?_, ?_, ?_⟩ <;>
    simp [Transport.getTimeout, Transport.setTimeout, Transport.isKeepAliveEnabled,
      Transport.enableKeepAlive, Transport.getKeepAliveTimeout, Transport.setKeepAliveTimeout,
      Transport.requireSession, Transport.connect, h, Except.bind, Except.map]

/-- Witness for C4 at a fresh transport. -/
theorem session_config_ops_witness :
    Transport.new.getTimeout = .error .illegalState ∧
    Transport.new.setTimeout 5 = .error .illegalState ∧
    Transport.new.isKeepAliveEnabled = .error .illegalState ∧
    Transport.new.enableKeepAlive true = .error .illegalState ∧
    Transport.new.getKeepAliveTimeout = .error .illegalState ∧
    Transport.new.setKeepAliveTimeout 5 = .error .illegalState ∧
    Except.bind ((Transport.new.connect "https://h/rpc").setTimeout 5) Transport.getTimeout =
      .ok 5 ∧
    Except.bind ((Transport.new.connect "https://h/rpc").enableKeepAlive true)
      Transport.isKeepAliveEnabled = .ok true ∧
    Except.bind ((Transport.new.connect "https://h/rpc").setKeepAliveTimeout 7)
      Transport.getKeepAliveTimeout = .ok 7 :=
  session_config_ops Transport.new "https://h/rpc" 5 7 true rfl

/-- C1: under AUTH_DIGEST, the first request of every call carries no
credentials; when the first response is a 401 with a Digest challenge,
exactly one retry of the same logical body is sent with the computed
digest response, a second 401 ends the call as an authentication failure
while a non-401 second response completes it, and when the first
response is anything else the call sends no further request. -/
theorem digest_handshake (t : Transport) (body : String) (server : Nat → HttpResponse)
    (hmode : t.authMode = .AUTH_DIGEST) :
    ((t.performCall body server).1.head?.map HttpRequest.auth = some .noCred) ∧
    (∀ ch, (server 0).status = 401 → (server 0).digestChallenge = some ch →
      (t.performCall body server).1 =
        [{ auth := .noCred, body := body },
         { auth := .digestCred (computeDigestResponse t.username t.password ch),
           body := body }] ∧
      ((server 1).status = 401 → (t.performCall body server).2 = .authFailure) ∧
      ((server 1).status ≠ 401 →
        (t.performCall body server).2 = .completed (server 1))) ∧
    ((server 0).status ≠ 401 ∨ (server 0).digestChallenge = none →
      (t.performCall body server).1 = [{ auth := .noCred, body := body }]) := by
  refine ⟨?_, ?_, ?_⟩
  · simp only [Transport.performCall, Transport.firstRequest, hmode]
    by_cases h0 : (server 0).status = 401
    · cases hch : (server 0).digestChallenge with
      | none => simp [h0, hch]
      | some ch =>
        by_cases h1 : (server 1).status = 401 <;> simp [h0, hch, h1]
    · simp [h0]
  · intro ch h0 hch
    simp only [Transport.performCall, Transport.firstRequest, hmode, h0, hch]
    refine ⟨?_, ?_, ?_⟩
    · by_cases h1 : (server 1).status = 401 <;> simp [h1]
    · intro h1; simp [h1]
    · intro h1; simp [h1]
  · intro hother
    simp only [Transport.performCall, Transport.firstRequest, hmode]
    rcases hother with h0 | hch
    · simp [h0]
    · by_cases h0 : (server 0).status = 401 <;> simp [h0, hch]

/-- A transport configured for Digest authentication, used to witness C1. -/
def digestTransport : Transport :=
  { Transport.new with
      authMode := .AUTH_DIGEST
      chunkedTransferEncoding := false
      username := "user1"
      password := "pass1" }

/-- A concrete Digest challenge, used to witness C1. -/
def challenge1 : DigestChallenge :=
  { realm := "realm1", nonce := "nonce1", qop := "auth" }

/-- A server that answers 401 with a Digest challenge on every attempt. -/
def serverAlways401 : Nat → HttpResponse :=
  fun _ => { status := 401, digestChallenge := some challenge1, basicChallenge := false }

/-- A server that answers 401 with a Digest challenge first, then 200. -/
def server401Then200 : Nat → HttpResponse :=
  fun n =>
    if n = 0 then { status := 401, digestChallenge := some challenge1, basicChallenge := false }
    else { status := 200, digestChallenge := none, basicChallenge := false }

/-- A server that fails with 500 on every attempt. -/
def serverAlways500 : Nat → HttpResponse :=
  fun _ => { status := 500, digestChallenge := none, basicChallenge := false }

/-- Witness for C1: the double-401, 401-then-200 and non-401-failure
servers, at a concrete Digest transport. -/
theorem digest_handshake_witness :
    (digestTransport.performCall "BODY" serverAlways401).1 =
      [{ auth := .noCred, body := "BODY" },
       { auth := .digestCred (computeDigestResponse "user1" "pass1" challenge1),
         body := "BODY" }] ∧
    (digestTransport.performCall "BODY" serverAlways401).2 = .authFailure ∧
    (digestTransport.performCall "BODY" server401Then200).2 =
      .completed { status := 200, digestChallenge := none, basicChallenge := false } ∧
    (digestTransport.performCall "BODY" serverAlways500).1 =
      [{ auth := .noCred, body := "BODY" }] := by
  have h1 := digest_handshake digestTransport "BODY" serverAlways401 rfl
  have h2 := digest_handshake digestTransport "BODY" server401Then200 rfl
  have h3 := digest_handshake digestTransport "BODY" serverAlways500 rfl
  obtain ⟨hfst, hretry, -⟩ := h1
  obtain ⟨hlist, hfail, -⟩ := hretry challenge1 rfl rfl
  refine ⟨hlist, hfail rfl, ?_, ?_⟩
  · obtain ⟨-, hretry2, -⟩ := h2
    obtain ⟨-, -, hdone⟩ := hretry2 challenge1 rfl rfl
    exact hdone (by decide)
  · exact h3.2.2 (Or.inl (by decide))

/-- Decoding the encoded named scalar parameters recovers them. -/
theorem decodeParams_encode (ps : List (String × Scalar)) :
    decodeParams (ps.map fun p => (p.1, scalarToJson p.2)) = some ps := by
  induction ps with
  | nil => rfl
  | cons p rest ih =>
    obtain ⟨k, s⟩ := p
    have hhead : jsonToScalar (scalarToJson s) = some s := by cases s <;> rfl
    simp [decodeParams, hhead, ih]

/-- C6: serializing a request envelope (method, named scalar params,
correlation id) or a response envelope and deserializing it back yields
the same envelope: the id and every scalar parameter value round-trip
unchanged. -/
theorem envelope_roundtrip (e : RequestEnvelope) (r : ResponseEnvelope) :
    deserializeRequest (serializeRequest e) = some e ∧
    deserializeResponse (serializeResponse r) = some r := by
  constructor
  · obtain ⟨m, ps, i⟩ := e
    simp [serializeRequest, deserializeRequest, List.lookup, decodeParams_encode]
  · obtain ⟨s, i⟩ := r
    cases s <;> simp [serializeResponse, deserializeResponse, List.lookup,
      jsonToScalar, scalarToJson]

/-- C8: after the store absorbs `Set-Cookie: sid=abc; Path=/;
Max-Age=3600` at time `t0`, a request to the same host and path at any
read time within the max-age carries `Cookie: sid=abc`; at any read time
more than 3600 seconds after `t0` the cookie is excluded and nothing
matches. -/
theorem cookie_maxage_honoured (host : String) (t0 tGood tLate : Nat)
    (hgood : tGood ≤ t0 + 3600) (hlate : t0 + 3600 < tLate) :
    CookieStore.cookieHeaderValue
        (CookieStore.cookiesFor
          (CookieStore.update [] ⟨"sid", "abc", "/", some 3600⟩ host t0) host "/" tGood) =
      "sid=abc" ∧
    CookieStore.cookiesFor
        (CookieStore.update [] ⟨"sid", "abc", "/", some 3600⟩ host t0) host "/" tLate =
      [] := by
  have hstore : CookieStore.update [] ⟨"sid", "abc", "/", some 3600⟩ host t0 =
      [{ name := "sid", value := "abc", domain := host, path := "/",
         expiry := some (t0 + 3600) }] := by
    simp [CookieStore.update]
  have hsw : CookieStore.pathMatches "/" "/" = true := by decide
  constructor
  · rw [hstore]
    simp [CookieStore.cookiesFor, List.filter, hsw, decide_eq_true hgood,
      CookieStore.sortByPathLen, CookieStore.insertByPathLen,
      CookieStore.cookieHeaderValue]
    rfl
  · rw [hstore]
    have hnot : decide (tLate ≤ t0 + 3600) = false :=
      decide_eq_false (by omega)
    simp [CookieStore.cookiesFor, List.filter, hsw, hnot, CookieStore.sortByPathLen]

/-- Witness for C8 at a concrete host and clock values. -/
theorem cookie_maxage_honoured_witness :
    CookieStore.cookieHeaderValue
        (CookieStore.cookiesFor
          (CookieStore.update [] ⟨"sid", "abc", "/", some 3600⟩ "h.example" 10)
          "h.example" "/" 100) =
      "sid=abc" ∧
    CookieStore.cookiesFor
        (CookieStore.update [] ⟨"sid", "abc", "/", some 3600⟩ "h.example" 10)
        "h.example" "/" 3611 =
      [] :=
  cookie_maxage_honoured "h.example" 10 100 3611 (by decide) (by decide)

end JSONRPC
